import Mathlib

/-!
Shallow embedding of the auto-apply-job-bot repository:
  * `src/backend/index.js` — the event broadcast channel (WebSocket fan-out,
    console interception, ping liveness check) and the `/start`, `/stop`,
    `/status` Express handlers;
  * `src/unnamed/part_000` — the React client session: the WebSocket
    reconnection state machine (`connectWebSocket`, `onclose`, `onopen`,
    `handleCheckConnection`).
JavaScript strings are Lean `String`s; the JS string operations used by the
code (`trim`, `startsWith`, `includes`, `join`) are embedded as explicit
character-list functions so that concrete instances evaluate by `decide`.
-/

namespace JobBot

/-- JS whitespace as used by `String.prototype.trim` (the characters the
repository's inputs can actually contain). -/
def isSpaceChar (c : Char) : Bool :=
  c == ' ' || c == '\t' || c == '\n' || c == '\r'

/-- `String.prototype.trim` on the underlying character list: drop
whitespace from both ends. -/
def trimChars (s : List Char) : List Char :=
  ((s.dropWhile isSpaceChar).reverse.dropWhile isSpaceChar).reverse

/-- JS `s.trim()`. -/
def jsTrim (s : String) : String := ⟨trimChars s.toList⟩

/-- Character-list version of JS `s.startsWith(pat)`. -/
def startsWithL : List Char → List Char → Bool
  | _, [] => true
  | [], _ :: _ => false
  | c :: cs, p :: ps => c == p && startsWithL cs ps

/-- JS `s.startsWith(pat)`. -/
def jsStartsWith (s pat : String) : Bool :=
  startsWithL s.toList pat.toList

/-- Character-list version of JS `s.includes(pat)`. -/
def containsL : List Char → List Char → Bool
  | [], pat => pat.isEmpty
  | c :: cs, pat => startsWithL (c :: cs) pat || containsL cs pat

/-- JS `s.includes(pat)`. -/
def jsIncludes (s pat : String) : Bool :=
  containsL s.toList pat.toList

/-- JS `args.join(' ')` on a list of strings. -/
def joinSp : List String → String
  | [] => ""
  | [x] => x
  | x :: y :: ys => x ++ " " ++ joinSp (y :: ys)

/-! ## Event Broadcast Channel (src/backend/index.js lines 26-133) -/

/-- A WebSocket subscriber as the backend sees it: `id` stands for the JS
object identity of the `ws` object (the `clients` set is keyed on it);
`readyState` is the ws readyState (1 = OPEN); `sendFails` models whether
`client.send` throws for this subscriber; `isAlive` is the liveness flag
maintained by the ping/pong health check. -/
structure BClient where
  id : Nat
  readyState : Nat
  sendFails : Bool
  isAlive : Bool
deriving DecidableEq

/-- Server-to-client frames (index.js sends JSON objects; we embed them as
an inductive rather than as JSON text). -/
inductive Frame where
  | logFrame (log : String)
deriving DecidableEq

/-- `client.send` viewed as a fallible operation: it throws exactly when the
subscriber's transport is broken (`sendFails`). -/
def clientSend (c : BClient) (f : Frame) : Except String Frame :=
  if c.sendFails then Except.error "send failed" else Except.ok f

/-- Outcome of the fan-out body for one subscriber: delivered a frame,
caught a send error (logged via originalConsoleError with the
already-broadcast marker), or skipped because the channel was not OPEN. -/
inductive SendOutcome where
  | delivered (f : Frame)
  | errorLogged (e : String)
  | skipped
deriving DecidableEq

/-- The body of the `clients.forEach` loop in `broadcastLog`
(index.js lines 39-47): only OPEN subscribers are sent to, and the send is
wrapped in a per-subscriber try/catch. -/
def sendToClient (m : String) (c : BClient) : SendOutcome :=
  if c.readyState = 1 then
    match clientSend c (Frame.logFrame m) with
    | Except.ok f => SendOutcome.delivered f
    | Except.error e => SendOutcome.errorLogged e
  else
    SendOutcome.skipped

/-- `broadcastLog` (index.js lines 31-48): fan the frame with the log
message out to every subscriber in the live set. The result is a total
list of per-subscriber outcomes — send errors are converted into
`errorLogged` inside the loop, so no exception leaves the function.
(The console mirror on lines 34-37 does not touch the subscriber set and
is modelled with the interception wrappers below.) -/
def broadcastLog (m : String) (clients : List BClient) : List SendOutcome :=
  clients.map (sendToClient m)

/-- The overridden `console.log` (index.js lines 51-60), as the list of
fan-out invocations it performs: it joins the arguments with spaces and,
unless the joined text carries the already-broadcast marker, calls
`broadcastLog` exactly once with that text. -/
def consoleLogOverride (args : List String) (clients : List BClient) :
    List (String × List SendOutcome) :=
  let message := joinSp args
  if jsIncludes message "[BROADCAST]" then []
  else [(message, broadcastLog message clients)]

/-- The overridden `console.error` (index.js lines 63-72): same marker
guard, but the broadcast text is the joined arguments behind an
`ERROR: ` tag. -/
def consoleErrorOverride (args : List String) (clients : List BClient) :
    List (String × List SendOutcome) :=
  let message := joinSp args
  if jsIncludes message "[BROADCAST]" then []
  else [("ERROR: " ++ message, broadcastLog ("ERROR: " ++ message) clients)]

/-! ## Ping liveness check (index.js lines 75-127) -/

/-- The `pong` handler (index.js lines 83-85): mark the subscriber alive. -/
def pongHandler (c : BClient) : BClient := { c with isAlive := true }

/-- One tick of the 30-second `pingInterval` (index.js lines 117-127) over
the subscriber set. A subscriber whose `isAlive` flag is still false is
terminated — its close event (lines 107-110) removes it from the set; every
other subscriber has its flag cleared and is pinged again. Returns the
surviving subscriber set and the list of terminated subscribers. -/
def pingCycle (clients : List BClient) : List BClient × List BClient :=
  ((clients.filter (fun c => c.isAlive)).map (fun c => { c with isAlive := false }),
   clients.filter (fun c => !c.isAlive))

/-! ## Control Service (src/backend/index.js lines 136-197) -/

/-- The configuration object built by the `/start` handler
(index.js lines 155-161). `USER_DATA_DIR` is the Chrome user-data path
assembled from the LOCALAPPDATA environment variable, passed in as `env`
below. -/
structure MonitorConfig where
  USER_DATA_DIR : String
  CHROME_PROFILES : List String
  REFRESH_INTERVAL : Nat
  TARGET_JOBS : List String
  AMAZON_JOBS_URL : String
deriving DecidableEq

/-- Responses of the `/start` handler. `invalidFormat` is the 400 for a
non-array `links`/`positions` field (line 140), `alreadyRunning` the 400 on
line 144, `invalidInput` the 400 on line 151, `started` the 200 with the
config (line 172). -/
inductive StartResp where
  | invalidFormat
  | alreadyRunning
  | invalidInput
  | started (config : MonitorConfig)
deriving DecidableEq

/-- Responses of the `/stop` handler: `notRunning` is the 400 on line 183,
`stopped` the 200 on line 187. -/
inductive StopResp where
  | notRunning
  | stopped
deriving DecidableEq

/-- The link filter of the `/start` handler (index.js line 147): keep a link
exactly when its trimmed form starts with the accepted hiring-site text. -/
def acceptLink (link : String) : Bool :=
  jsStartsWith (jsTrim link) "https://hiring.amazon"

/-- The position pipeline of the `/start` handler (index.js line 148): trim
every position and keep the non-empty ones. -/
def filterPositions (positions : List String) : List String :=
  (positions.map jsTrim).filter (fun p => p.toList.length > 0)

/-- The `/start` handler (index.js lines 136-177). `running` is the current
`isJobMonitorRunning()` value; a `none` field models a request body whose
`links` or `positions` is not an array. Returns the response together with
the run-state flag after the request. Modelled from the spec for the part
outside src/: `startMonitoringJobs` (imported from `./src/monitorJobs.js`,
not in the repository snapshot) sets `RunState.isRunning` to true for the
duration of the run, per the spec's `RunState` description ("must reflect
the true liveness of at most one concurrently active Worker Process
Handle"). -/
def startHandler (env : String) (running : Bool)
    (links positions : Option (List String)) : StartResp × Bool :=
  match links, positions with
  | some ls, some ps =>
    if running then (StartResp.alreadyRunning, running)
    else
      let jobLinks := ls.filter acceptLink
      let targetPositions := filterPositions ps
      if jobLinks.length = 0 ∨ targetPositions.length = 0 then
        (StartResp.invalidInput, running)
      else
        (StartResp.started
          { USER_DATA_DIR := env ++ "/Google/Chrome/User Data"
            CHROME_PROFILES := ["Profile 11"]
            REFRESH_INTERVAL := 30000
            TARGET_JOBS := targetPositions
            AMAZON_JOBS_URL := jobLinks.headD "" }, true)
  | _, _ => (StartResp.invalidFormat, running)

/-- The `/stop` handler (index.js lines 180-188). Modelled from the spec
for the part outside src/: `stopMonitoringJobs` clears `RunState.isRunning`. -/
def stopHandler (running : Bool) : StopResp × Bool :=
  if running then (StopResp.stopped, false) else (StopResp.notRunning, running)

/-- The `/status` handler (index.js lines 191-197): the run-state snapshot,
no side effects. -/
def statusHandler (running : Bool) : Bool := running

/-! ## Client Session reconnection machine (src/unnamed/part_000)

React state and refs that the reconnection logic touches, plus two ghost
counters (`attempts` counts `new WebSocket(WS_URL)` constructions,
`statusFetches` counts `fetchStatus()` invocations) used only to state
theorems. `pendingRetry` is `retryTimeoutRef`: the delay in milliseconds of
the scheduled retry, `none` when no retry timeout is set. `socket` records
whether `ws.current` holds a socket in CONNECTING/OPEN state. `logs` keeps
the messages of the session's log entries in append order (the wall-clock
timestamps attached on creation are omitted). -/

structure Session where
  retryCount : Nat
  isConnected : Bool
  statusMessage : String
  logs : List String
  pendingRetry : Option Nat
  socket : Bool
  attempts : Nat
  statusFetches : Nat
deriving DecidableEq

/-- `MAX_RETRIES` (part_000 line 20). -/
def MAX_RETRIES : Nat := 10

/-- The log message appended on a connection attempt (part_000 lines 64-67),
where `n` is `retryCount + 1`. -/
def attemptMsg (n : Nat) : String :=
  "Connecting to WebSocket (attempt " ++ toString n ++ "/10)..."

/-- The log message appended by the disconnect handler (part_000
lines 104-107), where `n` is the incremented retry count. -/
def disconnectMsg (n : Nat) : String :=
  "⚠️ WebSocket disconnected. Retrying (" ++ toString n ++ "/10)..."

/-- The synchronous part of `fetchStatus` (part_000 lines 146-151): append
the checking-status log entry and issue the request (counted by the ghost
`statusFetches`; the asynchronous response handling does not bear on the
claims). -/
def fetchStatus (s : Session) : Session :=
  { s with logs := s.logs ++ ["🔍 Checking server status..."],
           statusFetches := s.statusFetches + 1 }

/-- `connectWebSocket` (part_000 lines 44-144). First any pending retry
timeout is cleared (lines 46-48). If the retry count has reached
`MAX_RETRIES` the function gives up without attempting a connection
(lines 50-55). Otherwise it closes a still-open previous socket, appends
the attempt log entry, and constructs a new WebSocket; `constructFails`
selects the catch branch (lines 135-143), where the retry count is
incremented and a retry is scheduled with the exponential-backoff delay
(lines 140-142). On successful construction the socket exists and the
attempt is counted. -/
def connectWebSocket (constructFails : Bool) (s : Session) : Session :=
  let s0 := { s with pendingRetry := none }
  if MAX_RETRIES ≤ s0.retryCount then
    { s0 with
        statusMessage :=
          "Failed to connect to WebSocket. Please check if the server is running.",
        isConnected := false }
  else
    let s1 := { s0 with logs := s0.logs ++ [attemptMsg (s0.retryCount + 1)] }
    if constructFails then
      { s1 with
          statusMessage := "Failed to create WebSocket connection",
          retryCount := s1.retryCount + 1,
          pendingRetry := some (min (1000 * 2 ^ s1.retryCount) 30000) }
    else
      { s1 with socket := true, attempts := s1.attempts + 1 }

/-- `ws.current.onopen` (part_000 lines 71-93): mark connected, reset the
retry count, append the success log entry, start the heartbeat interval
(not part of the session state modelled here) and fetch the status. -/
def onopen (s : Session) : Session :=
  fetchStatus
    { s with isConnected := true,
             statusMessage := "Connected to server",
             retryCount := 0,
             logs := s.logs ++ ["✅ WebSocket connected successfully"] }

/-- A JavaScript runtime error raised while a handler runs. -/
inductive JsError where
  | referenceError (name : String)
deriving DecidableEq

/-- The identifiers in scope inside the `onclose` handler (part_000
lines 95-112): the component-level refs and bindings it closes over, and its
own parameter. `heartbeatInterval` is NOT among them — it is a `const` local
to the `onopen` handler (line 77). -/
def oncloseScope : List String :=
  ["ws", "event", "retryCount", "retryTimeoutRef", "MAX_RETRIES",
   "connectWebSocket", "setIsConnected", "setStatusMessage", "setLogs"]

/-- Name lookup in the `onclose` handler's scope; an unbound identifier
raises a ReferenceError (the file is an ES module, hence strict mode). -/
def lookupVar (n : String) : Except JsError Unit :=
  if oncloseScope.contains n then Except.ok () else Except.error (JsError.referenceError n)

/-- The remainder of the `onclose` handler as written (part_000
lines 99-111): mark disconnected, record the code in the status message,
increment the retry count, append the disconnect log entry, and schedule a
reconnect after `min(1000 * 2 ^ (retryCount - 1), 30000)` ms for the
incremented count. -/
def oncloseRest (code : Nat) (s : Session) : Session :=
  { s with isConnected := false,
           statusMessage := "Disconnected from server (code: " ++ toString code ++ ")",
           retryCount := s.retryCount + 1,
           logs := s.logs ++ [disconnectMsg (s.retryCount + 1)],
           pendingRetry := some (min (1000 * 2 ^ s.retryCount) 30000) }

/-- `ws.current.onclose` (part_000 lines 95-112). After the `console.warn`
on line 96 (which does not touch the session state), the handler's first
statement is `clearInterval(heartbeatInterval)` (line 98, under an
`eslint-disable no-undef`): evaluating the unbound identifier raises a
ReferenceError, so the handler aborts before any of `oncloseRest` runs. -/
def onclose (code : Nat) (s : Session) : Except JsError Session := do
  let _ ← lookupVar "heartbeatInterval"
  pure (oncloseRest code s)

/-- What actually happens to the session on a transport close event: the
socket leaves CONNECTING/OPEN state regardless, then the `onclose` handler
runs; an uncaught exception in an event handler aborts the handler and
leaves the React state as it was. -/
def dispatchClose (code : Nat) (s : Session) : Session :=
  let s1 := { s with socket := false }
  match onclose code s1 with
  | Except.ok t => t
  | Except.error _ => s1

/-- `handleCheckConnection` (part_000 lines 339-353): append the manual
check log entry, reset the retry count to 0, reconnect, and fetch the
status. -/
def handleCheckConnection (constructFails : Bool) (s : Session) : Session :=
  fetchStatus
    (connectWebSocket constructFails
      { s with logs := s.logs ++ ["🔄 Manual connection check initiated..."],
               retryCount := 0 })

/-- Events the session reacts to without user interaction: a scheduled
retry timeout firing (with the outcome of the WebSocket construction it
performs), a transport close, and a transport open. -/
inductive AutoEvent where
  | timer (constructFails : Bool)
  | closeEvt (code : Nat)
  | openEvt
deriving DecidableEq

/-- One automatic step of the session: a retry timeout only runs if one is
pending, and transport events only fire while a socket exists. -/
def autoStep (e : AutoEvent) (s : Session) : Session :=
  match e with
  | AutoEvent.timer cf => if s.pendingRetry.isSome then connectWebSocket cf s else s
  | AutoEvent.closeEvt code => if s.socket then dispatchClose code s else s
  | AutoEvent.openEvt => if s.socket then onopen s else s

/-- A run of automatic events, oldest first. -/
def autoRun (evs : List AutoEvent) (s : Session) : Session :=
  evs.foldl (fun t e => autoStep e t) s

/-- The connection-machine projection of the session: the state of §4.2's
reconnection state machine, without the accumulated log and the ghost
counters. -/
structure ConnView where
  retryCount : Nat
  isConnected : Bool
  statusMessage : String
  pendingRetry : Option Nat
  socket : Bool
deriving DecidableEq

/-- Project a session onto its connection-machine state. -/
def connView (s : Session) : ConnView :=
  { retryCount := s.retryCount, isConnected := s.isConnected,
    statusMessage := s.statusMessage, pendingRetry := s.pendingRetry,
    socket := s.socket }

/-! ## Concrete states used by witnesses and counterexamples -/

/-- A session that has exhausted its automatic retries: the retry count is
at the `MAX_RETRIES` ceiling and no socket is in CONNECTING/OPEN state. -/
def sessGaveUp : Session :=
  { retryCount := 10, isConnected := false,
    statusMessage := "Failed to connect to WebSocket. Please check if the server is running.",
    logs := [], pendingRetry := some 30000, socket := false, attempts := 4,
    statusFetches := 1 }

/-- A freshly mounted, disconnected session with one pending retry. -/
def sessIdle : Session :=
  { retryCount := 0, isConnected := false, statusMessage := "", logs := [],
    pendingRetry := some 2000, socket := false, attempts := 0, statusFetches := 0 }

/-- The config built for the start request with links
`[" https://hiring.amazon/x "]` and positions `[" Engineer "]`: the link is
stored with its surrounding whitespace intact, the position trimmed. -/
def cfgSpaced : MonitorConfig :=
  { USER_DATA_DIR := "E/Google/Chrome/User Data",
    CHROME_PROFILES := ["Profile 11"], REFRESH_INTERVAL := 30000,
    TARGET_JOBS := ["Engineer"], AMAZON_JOBS_URL := " https://hiring.amazon/x " }

/-! ## Theorems -/

/-- C1: for every published message, the fan-out outcome of each subscriber
in the live set is a function of that subscriber alone, so a send failure
for one subscriber cannot prevent delivery to any other; a subscriber whose
channel is OPEN and whose transport works receives exactly the frame with
the published message; a subscriber whose send throws has the error caught
and logged (`errorLogged`), and `broadcastLog` returns an outcome for every
subscriber rather than propagating any exception to the caller. -/
theorem publish_fanout_isolated (m : String) (cs : List BClient) (i : Nat)
    (c : BClient) (hi : cs[i]? = some c) :
    (broadcastLog m cs)[i]? = some (sendToClient m c) ∧
    (c.readyState = 1 ∧ c.sendFails = false →
      (broadcastLog m cs)[i]? = some (SendOutcome.delivered (Frame.logFrame m))) ∧
    (c.readyState = 1 ∧ c.sendFails = true →
      (broadcastLog m cs)[i]? = some (SendOutcome.errorLogged "send failed")) := by
  have hmap : (broadcastLog m cs)[i]? = some (sendToClient m c) := by
    simp [broadcastLog, List.getElem?_map, hi]
  refine ⟨hmap, fun ⟨h1, h2⟩ => ?_, fun ⟨h1, h2⟩ => ?_⟩
  · rw [hmap]
    simp [sendToClient, clientSend, h1, h2]
  · rw [hmap]
    simp [sendToClient, clientSend, h1, h2]

/-- Witness for C1 at a concrete subscriber set: the second subscriber is
OPEN with a working transport and receives the frame even though the first
subscriber's send throws (its error is caught and logged). -/
theorem publish_fanout_isolated_witness :
    (broadcastLog "job found" [⟨0, 1, true, true⟩, ⟨1, 1, false, true⟩])[1]? =
      some (SendOutcome.delivered (Frame.logFrame "job found")) ∧
    (broadcastLog "job found" [⟨0, 1, true, true⟩, ⟨1, 1, false, true⟩])[0]? =
      some (SendOutcome.errorLogged "send failed") :=
  ⟨(publish_fanout_isolated "job found" [⟨0, 1, true, true⟩, ⟨1, 1, false, true⟩]
      1 ⟨1, 1, false, true⟩ (by decide)).2.1 (by decide),
   (publish_fanout_isolated "job found" [⟨0, 1, true, true⟩, ⟨1, 1, false, true⟩]
      0 ⟨0, 1, true, true⟩ (by decide)).2.2 (by decide)⟩

/-- C8: an intercepted console call whose space-joined arguments contain
the `[BROADCAST]` marker performs no fan-out at all, and one whose joined
text lacks the marker performs exactly one fan-out with that text (the
`console.error` wrapper broadcasts it behind an `ERROR: ` tag). -/
theorem interception_no_reamplification (args : List String) (cs : List BClient) :
    (jsIncludes (joinSp args) "[BROADCAST]" = true →
      consoleLogOverride args cs = [] ∧ consoleErrorOverride args cs = []) ∧
    (jsIncludes (joinSp args) "[BROADCAST]" = false →
      consoleLogOverride args cs = [(joinSp args, broadcastLog (joinSp args) cs)] ∧
      consoleErrorOverride args cs =
        [("ERROR: " ++ joinSp args, broadcastLog ("ERROR: " ++ joinSp args) cs)]) := by
  constructor
  · intro hmk
    constructor
    · simp [consoleLogOverride, hmk]
    · simp [consoleErrorOverride, hmk]
  · intro hmk
    constructor
    · simp [consoleLogOverride, hmk]
    · simp [consoleErrorOverride, hmk]

/-- Witness for C8: a marker-tagged message is not re-broadcast, and an
ordinary message is broadcast exactly once. -/
theorem interception_no_reamplification_witness :
    consoleLogOverride ["[BROADCAST]", "seen"] [] = [] ∧
    consoleLogOverride ["new", "job"] [] = [("new job", [])] :=
  ⟨((interception_no_reamplification ["[BROADCAST]", "seen"] []).1 (by decide)).1,
   ((interception_no_reamplification ["new", "job"] []).2 (by decide)).1⟩

/-- C2: the claimed close-event transition is dead code. For every close
event the `onclose` handler raises a ReferenceError on its first statement
(`clearInterval(heartbeatInterval)`, where `heartbeatInterval` is scoped to
the `onopen` handler), so a close leaves the session's retry counter, log,
and retry timer untouched; the remainder of the handler as written
(`oncloseRest`, lines 99-111, never reached) would have incremented the
counter to `n`, recorded the disconnect log entry, and scheduled a
reconnect after exactly `min(1000 * 2 ^ (n - 1), 30000)` ms. -/
theorem onclose_throws_before_retry (code : Nat) (s : Session) :
    onclose code s = Except.error (JsError.referenceError "heartbeatInterval") ∧
    dispatchClose code s = { s with socket := false } ∧
    (oncloseRest code s).retryCount = s.retryCount + 1 ∧
    (oncloseRest code s).logs = s.logs ++ [disconnectMsg (s.retryCount + 1)] ∧
    (oncloseRest code s).pendingRetry =
      some (min (1000 * 2 ^ ((s.retryCount + 1) - 1)) 30000) := by
  refine ⟨rfl, rfl, rfl, rfl, ?_⟩
  simp [oncloseRest]

/-- C4: a start request received while the run-state flag is already true
is answered with the AlreadyRunning 400 and leaves the run state unchanged
(no second worker is started); a stop request received while no worker is
running is answered with the NotRunning 400 and leaves the run state
unchanged. The hypothesis pins the scenario: a first start succeeded, so
the run-state flag is true when the second request arrives. -/
theorem start_stop_state_guards (env : String) (ls ps ls2 ps2 : List String)
    (cfg : MonitorConfig)
    (h : startHandler env false (some ls) (some ps) = (StartResp.started cfg, true)) :
    startHandler env true (some ls2) (some ps2) = (StartResp.alreadyRunning, true) ∧
    stopHandler false = (StopResp.notRunning, false) := by
  exact ⟨rfl, rfl⟩

/-- Witness for C4 at concrete requests: the first start succeeds, the
second start is rejected with AlreadyRunning, and a stop without a running
worker is rejected with NotRunning. -/
theorem start_stop_state_guards_witness :
    startHandler "E" true (some ["https://hiring.amazon/y"]) (some ["Clerk"]) =
      (StartResp.alreadyRunning, true) ∧
    stopHandler false = (StopResp.notRunning, false) :=
  start_stop_state_guards "E" ["https://hiring.amazon/x"] ["Engineer"]
    ["https://hiring.amazon/y"] ["Clerk"]
    { USER_DATA_DIR := "E/Google/Chrome/User Data",
      CHROME_PROFILES := ["Profile 11"], REFRESH_INTERVAL := 30000,
      TARGET_JOBS := ["Engineer"], AMAZON_JOBS_URL := "https://hiring.amazon/x" }
    (by decide)

/-- Counterexample to C5 as stated: a start request whose links and
positions filter to empty, received while the worker is running, is
rejected with AlreadyRunning — not with InvalidInput — because the handler
checks `isJobMonitorRunning()` (line 143) before it filters the inputs
(lines 147-151). -/
theorem invalid_input_precedence_counterexample :
    (startHandler "E" true (some [""]) (some [""])).1 = StartResp.alreadyRunning ∧
    (startHandler "E" true (some [""]) (some [""])).1 ≠ StartResp.invalidInput := by
  decide

/-- C5 amended: a start request whose filtered links or positions are empty
is rejected with InvalidInput only when no worker is running; while the
worker is running, AlreadyRunning is returned even if the filtered inputs
are empty; only the array-format InvalidInput check precedes the
AlreadyRunning check. -/
theorem invalid_input_after_running_check (env : String) (ls ps : List String)
    (h : (ls.filter acceptLink).length = 0 ∨ (filterPositions ps).length = 0) :
    (startHandler env false (some ls) (some ps)).1 = StartResp.invalidInput ∧
    (startHandler env true (some ls) (some ps)).1 = StartResp.alreadyRunning ∧
    (∀ r : Bool, startHandler env r none (some ps) = (StartResp.invalidFormat, r)) := by
  refine ⟨?_, rfl, fun r => rfl⟩
  simp only [startHandler]
  rw [if_neg (by simp), if_pos h]

/-- Witness for C5's amended statement: blank single-entry inputs filter to
empty, so they are rejected with InvalidInput when idle but with
AlreadyRunning when the worker runs. -/
theorem invalid_input_after_running_check_witness :
    (startHandler "E" false (some [""]) (some [""])).1 = StartResp.invalidInput ∧
    (startHandler "E" true (some [""]) (some [""])).1 = StartResp.alreadyRunning ∧
    (∀ r : Bool, startHandler "E" r none (some [""]) = (StartResp.invalidFormat, r)) :=
  invalid_input_after_running_check "E" [""] [""] (by decide)

/-- One automatic step from a gave-up state (retry counter at the ceiling,
no live socket) makes no connection attempt and stays in a gave-up state:
a firing retry timeout runs `connectWebSocket`, which clears the timeout
and returns at the `MAX_RETRIES` guard without constructing a socket, and
no transport event can fire without a socket. -/
theorem autoStep_gaveUp (e : AutoEvent) (s : Session)
    (h1 : MAX_RETRIES ≤ s.retryCount) (h2 : s.socket = false) :
    (autoStep e s).attempts = s.attempts ∧
    (autoStep e s).retryCount = s.retryCount ∧
    (autoStep e s).socket = false := by
  cases e with
  | timer cf =>
    simp only [autoStep]
    by_cases hp : s.pendingRetry.isSome = true
    · rw [if_pos hp]
      simp only [connectWebSocket]
      rw [if_pos h1]
      exact ⟨rfl, rfl, h2⟩
    · rw [if_neg hp]
      exact ⟨rfl, rfl, h2⟩
  | closeEvt code =>
    simp only [autoStep, h2]
    exact ⟨rfl, rfl, h2⟩
  | openEvt =>
    simp only [autoStep, h2]
    exact ⟨rfl, rfl, h2⟩

/-- A whole run of automatic events from a gave-up state never attempts a
connection and never leaves the gave-up state. -/
theorem autoRun_gaveUp (evs : List AutoEvent) (s : Session)
    (h1 : MAX_RETRIES ≤ s.retryCount) (h2 : s.socket = false) :
    (autoRun evs s).attempts = s.attempts ∧
    (autoRun evs s).retryCount = s.retryCount ∧
    (autoRun evs s).socket = false := by
  induction evs generalizing s with
  | nil => exact ⟨rfl, rfl, h2⟩
  | cons e evs ih =>
    obtain ⟨ha, hr, hs⟩ := autoStep_gaveUp e s h1 h2
    obtain ⟨ha2, hr2, hs2⟩ := ih (autoStep e s) (hr ▸ h1) hs
    exact ⟨ha2.trans ha, hr2.trans hr, hs2⟩

/-- C3: once the retry counter has reached the `MAX_RETRIES` ceiling (10)
and no socket is live, no sequence of automatic events (retry timeouts
firing, transport events) ever makes another connection attempt — the
attempt counter is unchanged and the session stays gave-up — until a manual
reconnect request, which resets the retry counter to 0 and immediately
re-enters the connecting state with a fresh attempt. -/
theorem give_up_halts_auto_retry (s : Session) (evs : List AutoEvent)
    (h1 : MAX_RETRIES ≤ s.retryCount) (h2 : s.socket = false) :
    (autoRun evs s).attempts = s.attempts ∧
    MAX_RETRIES ≤ (autoRun evs s).retryCount ∧
    (autoRun evs s).socket = false ∧
    (handleCheckConnection false (autoRun evs s)).retryCount = 0 ∧
    (handleCheckConnection false (autoRun evs s)).attempts = s.attempts + 1 ∧
    (handleCheckConnection false (autoRun evs s)).socket = true := by
  obtain ⟨ha, hr, hs⟩ := autoRun_gaveUp evs s h1 h2
  refine ⟨ha, hr ▸ h1, hs, ?_, ?_, ?_⟩ <;>
    simp [handleCheckConnection, connectWebSocket, fetchStatus, MAX_RETRIES, ha]

/-- Witness for C3: from a concrete gave-up session, a run with a firing
retry timeout and stray transport events makes no attempt, and the manual
reconnect then resets the counter and attempts a connection. -/
theorem give_up_halts_auto_retry_witness :
    (autoRun [AutoEvent.timer true, AutoEvent.closeEvt 1006, AutoEvent.timer false,
      AutoEvent.openEvt] sessGaveUp).attempts = sessGaveUp.attempts ∧
    MAX_RETRIES ≤ (autoRun [AutoEvent.timer true, AutoEvent.closeEvt 1006,
      AutoEvent.timer false, AutoEvent.openEvt] sessGaveUp).retryCount ∧
    (autoRun [AutoEvent.timer true, AutoEvent.closeEvt 1006, AutoEvent.timer false,
      AutoEvent.openEvt] sessGaveUp).socket = false ∧
    (handleCheckConnection false (autoRun [AutoEvent.timer true, AutoEvent.closeEvt 1006,
      AutoEvent.timer false, AutoEvent.openEvt] sessGaveUp)).retryCount = 0 ∧
    (handleCheckConnection false (autoRun [AutoEvent.timer true, AutoEvent.closeEvt 1006,
      AutoEvent.timer false, AutoEvent.openEvt] sessGaveUp)).attempts =
      sessGaveUp.attempts + 1 ∧
    (handleCheckConnection false (autoRun [AutoEvent.timer true, AutoEvent.closeEvt 1006,
      AutoEvent.timer false, AutoEvent.openEvt] sessGaveUp)).socket = true :=
  give_up_halts_auto_retry sessGaveUp
    [AutoEvent.timer true, AutoEvent.closeEvt 1006, AutoEvent.timer false,
     AutoEvent.openEvt] (by decide) (by decide)

/-- Counterexample to C9 as stated: a manual reconnect is not idempotent on
the session state, because every invocation appends fresh log entries (the
manual-check entry, the connection-attempt entry, and the status-check
entry), so repeating it from the resulting state changes the state again. -/
theorem manual_reconnect_not_idempotent :
    handleCheckConnection false (handleCheckConnection false sessIdle) ≠
      handleCheckConnection false sessIdle := by
  decide

/-- C9 amended: a manual reconnect cancels any pending scheduled retry,
resets the retry counter to 0, and immediately makes a connection attempt
and a status fetch; it is idempotent on the connection-machine state
(retry counter, pending retry, connection flags, status message), though
each invocation appends three log entries to the session's log. -/
theorem manual_reconnect_effects (s : Session) :
    (handleCheckConnection false s).pendingRetry = none ∧
    (handleCheckConnection false s).retryCount = 0 ∧
    (handleCheckConnection false s).attempts = s.attempts + 1 ∧
    (handleCheckConnection false s).statusFetches = s.statusFetches + 1 ∧
    (handleCheckConnection false s).logs =
      s.logs ++ ["🔄 Manual connection check initiated...", attemptMsg 1,
        "🔍 Checking server status..."] ∧
    connView (handleCheckConnection false (handleCheckConnection false s)) =
      connView (handleCheckConnection false s) := by
  refine ⟨?_, ?_, ?_, ?_, ?_, ?_⟩ <;>
    simp [handleCheckConnection, connectWebSocket, fetchStatus, connView, MAX_RETRIES]

/-- A non-empty list's optional head is its head with any default. -/
theorem head?_eq_headD (l : List String) (hl : l ≠ []) :
    l.head? = some (l.headD "") := by
  cases l with
  | nil => exact absurd rfl hl
  | cons x xs => rfl

/-- A string's character list is empty exactly when the string is empty. -/
theorem toList_eq_nil_iff (p : String) : p.toList = [] ↔ p = "" := by
  constructor
  · intro h
    cases p with
    | mk d => exact congrArg String.mk (h : d = [])
  · intro h
    rw [h]
    rfl

/-- Inversion of a successful `/start`: the accepted-link list is
non-empty, the primary URL is its first element, and the target positions
are the trimmed non-blank positions. -/
theorem startHandler_started_inv (env : String) (ls ps : List String)
    (cfg : MonitorConfig) (b : Bool)
    (h : startHandler env false (some ls) (some ps) = (StartResp.started cfg, b)) :
    ls.filter acceptLink ≠ [] ∧
    cfg.AMAZON_JOBS_URL = (ls.filter acceptLink).headD "" ∧
    cfg.TARGET_JOBS = filterPositions ps := by
  simp only [startHandler] at h
  rw [if_neg (by simp)] at h
  by_cases hc : (ls.filter acceptLink).length = 0 ∨ (filterPositions ps).length = 0
  · rw [if_pos hc] at h
    exact absurd h (by simp)
  · rw [if_neg hc] at h
    simp only [Prod.mk.injEq, StartResp.started.injEq] at h
    obtain ⟨hcfg, hb⟩ := h
    push_neg at hc
    refine ⟨fun hnil => hc.1 (by rw [hnil]; rfl), ?_, ?_⟩
    · rw [← hcfg]
    · rw [← hcfg]

/-- C6: in every accepted start request, a link is kept by the filter
exactly when its trimmed form starts with `https://hiring.amazon`; the
config's primary target URL is the first accepted link; the config's
target-position list is exactly the filtered position pipeline, and a
string belongs to it exactly when it is the trimmed form of an input
position and non-empty. -/
theorem start_accepts_and_builds_config (env : String) (ls ps : List String)
    (cfg : MonitorConfig) (b : Bool)
    (h : startHandler env false (some ls) (some ps) = (StartResp.started cfg, b)) :
    (∀ l, (l ∈ ls.filter acceptLink ↔
      l ∈ ls ∧ jsStartsWith (jsTrim l) "https://hiring.amazon" = true)) ∧
    (ls.filter acceptLink).head? = some cfg.AMAZON_JOBS_URL ∧
    cfg.TARGET_JOBS = filterPositions ps ∧
    (∀ p, (p ∈ cfg.TARGET_JOBS ↔ p ∈ ps.map jsTrim ∧ p ≠ "")) := by
  obtain ⟨hne, hurl, hjobs⟩ := startHandler_started_inv env ls ps cfg b h
  refine ⟨?_, ?_, hjobs, ?_⟩
  · intro l
    simp [List.mem_filter, acceptLink]
  · rw [hurl]
    exact head?_eq_headD _ hne
  · intro p
    rw [hjobs]
    simp only [filterPositions, List.mem_filter, decide_eq_true_eq]
    constructor
    · rintro ⟨hm, hl⟩
      refine ⟨hm, fun he => ?_⟩
      rw [he] at hl
      simp at hl
    · rintro ⟨hm, hne2⟩
      refine ⟨hm, ?_⟩
      rcases Nat.eq_zero_or_pos p.toList.length with hp | hp
      · exact absurd ((toList_eq_nil_iff p).mp (List.length_eq_zero.mp hp)) hne2
      · exact hp

/-- Witness for C6 at a concrete accepted request with one off-site link
(filtered out), one accepted link, a blank position (filtered out) and one
kept position. -/
theorem start_accepts_and_builds_config_witness :
    (["https://careers.other.com/a", "https://hiring.amazon/x"].filter
        acceptLink).head? = some "https://hiring.amazon/x" ∧
    (["https://hiring.amazon/x"] : List String) =
      ["https://careers.other.com/a", "https://hiring.amazon/x"].filter acceptLink ∧
    (["Engineer"] : List String) = filterPositions [" Engineer ", "  "] :=
  ⟨(start_accepts_and_builds_config "E"
      ["https://careers.other.com/a", "https://hiring.amazon/x"] [" Engineer ", "  "]
      { USER_DATA_DIR := "E/Google/Chrome/User Data",
        CHROME_PROFILES := ["Profile 11"], REFRESH_INTERVAL := 30000,
        TARGET_JOBS := ["Engineer"], AMAZON_JOBS_URL := "https://hiring.amazon/x" }
      true (by decide)).2.1, by decide, by decide⟩

/-- C7: at a liveness-check tick, a subscriber whose `isAlive` flag is
still false (it has not answered the previous cycle's ping with a pong) is
terminated and — via its close event — removed from the subscriber set,
while a subscriber that did pong is kept and pinged again; every survivor's
flag is cleared (awaiting the new pong), and only the pong handler sets the
flag back. -/
theorem liveness_check_prunes (cs : List BClient) (c : BClient) (hc : c ∈ cs)
    (hnd : (cs.map BClient.id).Nodup) :
    (c.isAlive = false →
      c ∈ (pingCycle cs).2 ∧ c.id ∉ ((pingCycle cs).1.map BClient.id)) ∧
    (c.isAlive = true →
      { c with isAlive := false } ∈ (pingCycle cs).1 ∧ c ∉ (pingCycle cs).2) ∧
    (∀ d ∈ (pingCycle cs).1, d.isAlive = false) ∧
    pongHandler c = { c with isAlive := true } := by
  refine ⟨?_, ?_, ?_, rfl⟩
  · intro hal
    constructor
    · simp [pingCycle, List.mem_filter, hc, hal]
    · intro hmem
      simp only [pingCycle, List.map_map, List.mem_map] at hmem
      obtain ⟨d, hd, hid⟩ := hmem
      rw [List.mem_filter] at hd
      have : d = c := List.inj_on_of_nodup_map hnd hd.1 hc hid
      rw [this] at hd
      rw [hal] at hd
      simp at hd
  · intro hal
    constructor
    · exact List.mem_map_of_mem _ (List.mem_filter.mpr ⟨hc, by rw [hal]⟩)
    · intro hmem
      simp only [pingCycle, List.mem_filter] at hmem
      rw [hal] at hmem
      simp at hmem
  · intro d hd
    simp only [pingCycle, List.mem_map] at hd
    obtain ⟨e, he, hde⟩ := hd
    rw [← hde]

/-- Witness for C7: in a set with one silent and one responsive
subscriber, the cycle terminates and removes the former and re-pings the
latter. -/
theorem liveness_check_prunes_witness :
    (⟨0, 1, false, false⟩ : BClient) ∈
      (pingCycle [⟨0, 1, false, false⟩, ⟨1, 1, false, true⟩]).2 ∧
    (0 : Nat) ∉ ((pingCycle [⟨0, 1, false, false⟩, ⟨1, 1, false, true⟩]).1.map
      BClient.id) ∧
    (⟨1, 1, false, false⟩ : BClient) ∈
      (pingCycle [⟨0, 1, false, false⟩, ⟨1, 1, false, true⟩]).1 :=
  ⟨((liveness_check_prunes [⟨0, 1, false, false⟩, ⟨1, 1, false, true⟩]
      ⟨0, 1, false, false⟩ (by decide) (by decide)).1 rfl).1,
   ((liveness_check_prunes [⟨0, 1, false, false⟩, ⟨1, 1, false, true⟩]
      ⟨0, 1, false, false⟩ (by decide) (by decide)).1 rfl).2,
   (((liveness_check_prunes [⟨0, 1, false, false⟩, ⟨1, 1, false, true⟩]
      ⟨1, 1, false, true⟩ (by decide) (by decide)).2.1) rfl).1⟩

/-- C10: in every accepted start request, the primary target URL is the
first accepted link exactly as supplied (filtering never rewrites the
element, so surrounding whitespace survives — trimming is applied only
inside the acceptance test), whereas every stored target position is the
trimmed form of one of the input positions. -/
theorem primary_link_kept_verbatim (env : String) (ls ps : List String)
    (cfg : MonitorConfig) (b : Bool)
    (h : startHandler env false (some ls) (some ps) = (StartResp.started cfg, b)) :
    (ls.filter acceptLink).head? = some cfg.AMAZON_JOBS_URL ∧
    (∀ p ∈ cfg.TARGET_JOBS, ∃ q ∈ ps, p = jsTrim q) := by
  obtain ⟨hne, hurl, hjobs⟩ := startHandler_started_inv env ls ps cfg b h
  refine ⟨hurl ▸ head?_eq_headD _ hne, ?_⟩
  intro p hp
  rw [hjobs] at hp
  simp only [filterPositions, List.mem_filter, List.mem_map] at hp
  obtain ⟨⟨q, hq, hpq⟩, _⟩ := hp
  exact ⟨q, hq, hpq.symm⟩

/-- Witness for C10: a link supplied with surrounding whitespace is
accepted (its trimmed form passes the test) yet stored verbatim — the
stored URL differs from its own trimmed form — while the stored position is
the trimmed input. -/
theorem primary_link_kept_verbatim_witness :
    ([" https://hiring.amazon/x "].filter acceptLink).head? =
      some cfgSpaced.AMAZON_JOBS_URL ∧
    cfgSpaced.AMAZON_JOBS_URL = " https://hiring.amazon/x " ∧
    cfgSpaced.AMAZON_JOBS_URL ≠ jsTrim cfgSpaced.AMAZON_JOBS_URL ∧
    cfgSpaced.TARGET_JOBS = [jsTrim " Engineer "] :=
  ⟨(primary_link_kept_verbatim "E" [" https://hiring.amazon/x "] [" Engineer "]
      cfgSpaced true (by decide)).1, by decide, by decide, by decide⟩

end JobBot
